import Mathlib

/-!
Verification of the email plugin core (send/log/reconcile pipeline).

Shallow embedding conventions:
* JavaScript `Date` instants are modelled as `Nat` (epoch milliseconds); a
  payload field `created_at` is modelled directly as the instant it denotes,
  since `new Date(created_at)` is a deterministic function of the string.
* JavaScript truthiness of an optional string (`undefined` or `""` is falsy)
  is `jsTruthy`.
* A `Partial<EmailLog>` database update is a record of `Option` fields where
  `none` means the key is absent from the update object.
* External collaborators (the svix signature verifier, `JSON.parse`) are
  passed as function parameters, matching their black-box role.
-/

/-- Email status enumeration (`EmailStatus` in src/src/types.ts). -/
inductive EmailStatus where
  | pending
  | sent
  | delivered
  | opened
  | clicked
  | bounced
  | complained
  | failed
  | delivery_delayed
deriving DecidableEq, Repr

/-- Content type enumeration (`EmailContentType` in src/src/types.ts). -/
inductive EmailContentType where
  | html
  | text
  | mixed
deriving DecidableEq, Repr

/-- Provider enumeration (`EmailProvider` in src/src/types.ts). -/
inductive EmailProvider where
  | resend
  | sendgrid
  | bravo
deriving DecidableEq, Repr

/-- JavaScript truthiness of an optional string: `undefined` and `""` are falsy. -/
def jsTruthy (o : Option String) : Bool :=
  match o with
  | some s => !s.isEmpty
  | none => false

/-- JavaScript `x || d` for an optional string `x` and default `d`:
the default is used when `x` is `undefined` or the empty string. -/
def jsOrDefault (o : Option String) (d : String) : String :=
  match o with
  | some s => if s.isEmpty then d else s
  | none => d

/-- JavaScript `a || b` over two optional strings (`payload.data.id ||
payload.data.email_id`): `a` when truthy, otherwise `b` unchanged. -/
def jsOrOpt (a b : Option String) : Option String :=
  if jsTruthy a then a else b

/-- The character class `\s` of JavaScript regular expressions. -/
def jsWhitespaceChar (c : Char) : Bool :=
  [' ', '\t', '\n', '\x0b', '\x0c', '\r', ' ', ' ', ' ',
   ' ', ' ', ' ', ' ', ' ', ' ', ' ',
   ' ', ' ', ' ', ' ', ' ', ' ', ' ',
   '　', '﻿'].contains c

/-- The character class `[^\s@]` of the email regex. -/
def okChar (c : Char) : Bool :=
  !jsWhitespaceChar c && c != '@'

/-- `isValidEmail` (src/src/utils.ts:20): the regex
`^[^\s@]+@[^\s@]+\.[^\s@]+$` holds of the string.  A match is a decomposition
`local @ rest` with `local` a nonempty run of `[^\s@]`, and `rest` a nonempty
run of `[^\s@]` containing a dot with nonempty material on both sides. -/
def isValidEmail (email : String) : Bool :=
  let cs := email.data
  (List.range cs.length).any (fun i =>
    cs.getD i ' ' == '@' && decide (0 < i) && (cs.take i).all okChar &&
      (let rest := cs.drop (i + 1)
       rest.all okChar &&
         (List.range rest.length).any (fun j =>
           rest.getD j ' ' == '.' && decide (1 ≤ j) &&
             decide (j + 1 < rest.length))))

/-- JavaScript `Array.prototype.join(sep)` over a list of strings. -/
def jsJoin (sep : String) : List String → String
  | [] => ""
  | [x] => x
  | x :: y :: ys => x ++ sep ++ jsJoin sep (y :: ys)

/-- The argument of `validateEmailArray`: a single string or an array
(`string | string[]`). -/
inductive EmailsArg where
  | one (email : String)
  | many (emails : List String)

/-- `Array.isArray(emails) ? emails : [emails]` (src/src/utils.ts:29). -/
def emailsArgToArray : EmailsArg → List String
  | .one email => [email]
  | .many emails => emails

/-- `validateEmailArray` (src/src/utils.ts:28): wrap a single address into a
one-element array, collect the invalid addresses, and either throw an error
naming all of them or return the array unchanged. -/
def validateEmailArray (emails : EmailsArg) : Except String (List String) :=
  let emailArray := emailsArgToArray emails
  let invalidEmails := emailArray.filter (fun email => !isValidEmail email)
  if invalidEmails.length > 0 then
    Except.error ("Invalid email addresses: " ++ jsJoin ", " invalidEmails)
  else
    Except.ok emailArray

/-- Character-level model of JavaScript `String.prototype.split(",")`. -/
def splitComma : List Char → List (List Char)
  | [] => [[]]
  | c :: cs =>
    if c = ',' then [] :: splitComma cs
    else
      match splitComma cs with
      | [] => [[c]]
      | h :: t => (c :: h) :: t

/-- `arrayToString` (src/src/utils.ts:55):
`arr && arr.length > 0 ? arr.join(",") : undefined`. -/
def arrayToString (arr : Option (List String)) : Option String :=
  match arr with
  | some a => if a.length > 0 then some (jsJoin "," a) else none
  | none => none

/-- `stringToArray` (src/src/utils.ts:62):
`str ? str.split(",").filter(Boolean) : undefined`. -/
def stringToArray (str : Option String) : Option (List String) :=
  match str with
  | some s =>
    if s.isEmpty then none
    else some (((splitComma s.data).map String.mk).filter
      (fun part => !part.isEmpty))
  | none => none

/-- `webhookEventToStatus` (src/src/utils.ts:69): map the vendor event type to
the internal status; unrecognized types map to `pending`. -/
def webhookEventToStatus (eventType : String) : EmailStatus :=
  match eventType with
  | "email.sent" => .sent
  | "email.delivered" => .delivered
  | "email.opened" => .opened
  | "email.clicked" => .clicked
  | "email.bounced" => .bounced
  | "email.complained" => .complained
  | "email.failed" => .failed
  | "email.delivery_delayed" => .delivery_delayed
  | _ => .pending

/-- The `data` object of a Resend webhook payload
(`ResendWebhookPayload.data` in src/src/types.ts). -/
structure WebhookData where
  id : Option String := none
  email_id : Option String := none
  fromAddr : String := ""
  toAddr : List String := []
  subject : String := ""
  created_at : Nat := 0
  bounce_type : Option String := none
  complaint_type : Option String := none
deriving DecidableEq, Repr

/-- `ResendWebhookPayload` (src/src/types.ts): `created_at` is the instant
denoted by the string field (see the `Date` modelling convention above). -/
structure ResendWebhookPayload where
  type : String
  created_at : Nat
  data : WebhookData
deriving DecidableEq, Repr

/-- A `Partial<EmailLog>` update object restricted to the fields the webhook
reconciler ever writes; `none` means the key is absent from the update. -/
structure EmailLogUpdate where
  status : Option EmailStatus := none
  providerId : Option String := none
  updatedAt : Option Nat := none
  sentAt : Option Nat := none
  deliveredAt : Option Nat := none
  openedAt : Option Nat := none
  clickedAt : Option Nat := none
  bouncedAt : Option Nat := none
  complainedAt : Option Nat := none
  failedAt : Option Nat := none
  errorMessage : Option String := none
deriving DecidableEq, Repr

/-- `parseResendWebhook` (src/src/utils.ts:153): compute the update object for
a webhook payload, or throw when the payload carries no truthy message id. -/
def parseResendWebhook (payload : ResendWebhookPayload) :
    Except String EmailLogUpdate :=
  let status := webhookEventToStatus payload.type
  let timestamp := payload.created_at
  let messageId := jsOrOpt payload.data.id payload.data.email_id
  if !jsTruthy messageId then
    Except.error "No message ID found in webhook payload"
  else
    let base : EmailLogUpdate :=
      { status := some status
        providerId := messageId
        updatedAt := some timestamp }
    Except.ok (match payload.type with
      | "email.sent" => { base with sentAt := some timestamp }
      | "email.delivered" => { base with deliveredAt := some timestamp }
      | "email.opened" => { base with openedAt := some timestamp }
      | "email.clicked" => { base with clickedAt := some timestamp }
      | "email.bounced" =>
        { base with
          bouncedAt := some timestamp
          errorMessage :=
            match payload.data.bounce_type with
            | some bt => if bt.isEmpty then none else some ("Bounced: " ++ bt)
            | none => none }
      | "email.complained" =>
        { base with
          complainedAt := some timestamp
          errorMessage :=
            match payload.data.complaint_type with
            | some ct =>
              if ct.isEmpty then none else some ("Complained: " ++ ct)
            | none => none }
      | "email.failed" =>
        { base with
          failedAt := some timestamp
          errorMessage := some "Email delivery failed" }
      | _ => base)

/-- The persisted email log row (`DatabaseEmailLog` in src/src/types.ts, with
the typed `status`/`contentType`/`provider` of `EmailLog`). -/
structure EmailLogRec where
  id : String
  resendId : Option String := none
  fromAddress : String
  toAddress : String
  ccAddress : Option String := none
  bccAddress : Option String := none
  replyToAddress : Option String := none
  subject : String
  content : String
  contentType : EmailContentType
  status : EmailStatus
  providerId : Option String := none
  provider : EmailProvider
  errorMessage : Option String := none
  sentAt : Option Nat := none
  deliveredAt : Option Nat := none
  openedAt : Option Nat := none
  clickedAt : Option Nat := none
  bouncedAt : Option Nat := none
  complainedAt : Option Nat := none
  failedAt : Option Nat := none
  metadata : Option String := none
  tags : Option String := none
  userId : Option String := none
  createdAt : Nat := 0
  updatedAt : Nat := 0
deriving DecidableEq, Repr

/-- Overwrite an optional row field with an update field when the update key
is present (`none` = key absent, row field untouched). -/
def patchField {α : Type} (upd : Option α) (old : Option α) : Option α :=
  match upd with
  | some v => some v
  | none => old

/-- The persistence adapter applying a partial update object to a row: every
key present in the update overwrites the row field of the same name. -/
def applyUpdate (log : EmailLogRec) (u : EmailLogUpdate) : EmailLogRec :=
  { log with
    status := u.status.getD log.status
    providerId := patchField u.providerId log.providerId
    updatedAt := u.updatedAt.getD log.updatedAt
    sentAt := patchField u.sentAt log.sentAt
    deliveredAt := patchField u.deliveredAt log.deliveredAt
    openedAt := patchField u.openedAt log.openedAt
    clickedAt := patchField u.clickedAt log.clickedAt
    bouncedAt := patchField u.bouncedAt log.bouncedAt
    complainedAt := patchField u.complainedAt log.complainedAt
    failedAt := patchField u.failedAt log.failedAt
    errorMessage := patchField u.errorMessage log.errorMessage }

/-- The statistics record returned by `calculateEmailStats`
(`EmailStats` in src/src/types.ts); rates are exact rationals. -/
structure EmailStatsRec where
  total : Nat
  sent : Nat
  delivered : Nat
  opened : Nat
  clicked : Nat
  bounced : Nat
  complained : Nat
  failed : Nat
  openRate : Rat
  clickRate : Rat
  bounceRate : Rat
deriving DecidableEq, Repr

/-- `calculateEmailStats` (src/src/utils.ts:218). -/
def calculateEmailStats (emailLogs : List EmailLogRec) : EmailStatsRec :=
  let total := emailLogs.length
  let sent := (emailLogs.filter (fun log =>
    log.status == .sent || log.status == .delivered)).length
  let delivered := (emailLogs.filter (fun log => log.status == .delivered)).length
  let opened := (emailLogs.filter (fun log => log.status == .opened)).length
  let clicked := (emailLogs.filter (fun log => log.status == .clicked)).length
  let bounced := (emailLogs.filter (fun log => log.status == .bounced)).length
  let complained := (emailLogs.filter (fun log =>
    log.status == .complained)).length
  let failed := (emailLogs.filter (fun log => log.status == .failed)).length
  { total := total
    sent := sent
    delivered := delivered
    opened := opened
    clicked := clicked
    bounced := bounced
    complained := complained
    failed := failed
    openRate := if delivered > 0 then ((opened : Rat) / delivered) * 100 else 0
    clickRate := if delivered > 0 then ((clicked : Rat) / delivered) * 100 else 0
    bounceRate := if sent > 0 then ((bounced : Rat) / sent) * 100 else 0 }

/-- `SendEmailResponse` (src/src/types.ts). -/
structure SendEmailResponse where
  success : Bool
  id : Option String := none
  providerId : Option String := none
  error : Option String := none
deriving DecidableEq, Repr

/-- `InputEmailLog` (src/src/types.ts): the data handed to the persistence
adapter when creating an email log row. -/
structure InputEmailLog where
  resendId : Option String := none
  fromAddress : String
  toAddress : String
  ccAddress : Option String := none
  bccAddress : Option String := none
  replyToAddress : Option String := none
  subject : String
  content : String
  contentType : EmailContentType
  status : EmailStatus
  providerId : Option String := none
  provider : EmailProvider
  errorMessage : Option String := none
  sentAt : Option Nat := none
  deliveredAt : Option Nat := none
  openedAt : Option Nat := none
  clickedAt : Option Nat := none
  bouncedAt : Option Nat := none
  complainedAt : Option Nat := none
  failedAt : Option Nat := none
  metadata : Option String := none
  tags : Option String := none
  userId : Option String := none
deriving DecidableEq, Repr

/-- The API error shapes thrown by the endpoints (via `createValidationError`
and `APIError` in src/src/index.ts). -/
inductive ApiErr where
  | unauthorized (message : String)
  | badRequest (message : String)
  | internal (message : String)
deriving DecidableEq, Repr

/-- The outcome mutation of `sendEmail` (src/src/index.ts:249-261): on
success save the provider id, mark sent and stamp `sentAt`; on failure mark
failed, stamp `failedAt` and record `sendResult.error || "Failed to send
email"`. -/
def finalizeEmailLog (emailLogData : InputEmailLog)
    (sendResult : SendEmailResponse) (now : Nat) : InputEmailLog :=
  if sendResult.success then
    { emailLogData with
      providerId := sendResult.providerId
      status := .sent
      sentAt := some now }
  else
    { emailLogData with
      status := .failed
      failedAt := some now
      errorMessage := some (jsOrDefault sendResult.error "Failed to send email") }

/-- One observable step of the `sendEmail` handler after the adapter call:
a persistence create, a thrown API error, or the success response. -/
inductive SendStep where
  | createLog (data : InputEmailLog)
  | throwErr (e : ApiErr)
  | respond (emailId : String) (providerId : Option String) (message : String)
deriving DecidableEq, Repr

/-- Whether a step is the persistence create. -/
def SendStep.isCreate : SendStep → Bool
  | .createLog _ => true
  | _ => false

/-- The ordered observable steps of `sendEmail` (src/src/index.ts:246-290)
from the adapter result onward: finalize the log data, create the log row
(both outcomes), then either throw `SEND_FAILED` or return success. -/
def sendEmailSteps (emailLogData : InputEmailLog)
    (sendResult : SendEmailResponse) (now : Nat) (emailLogId : String) :
    List SendStep :=
  let finalLog := finalizeEmailLog emailLogData sendResult now
  SendStep.createLog finalLog ::
    (if sendResult.success then
      [SendStep.respond emailLogId sendResult.providerId
        "Email sent successfully"]
    else
      [SendStep.throwErr (.internal
        (jsOrDefault sendResult.error "Failed to send email"))])

/-- How one `this.sendEmail(email)` promise settles inside
`Promise.allSettled`: fulfilled with a response, or rejected with a reason
(`some message` when the reason is an `Error`, `none` otherwise). -/
inductive SendOutcome where
  | fulfilled (value : SendEmailResponse)
  | rejected (reason : Option String)
deriving DecidableEq, Repr

/-- The per-result branch of `ResendEmailAdapter.sendBulkEmails`
(src/src/types.ts:340-352): keep a fulfilled value, convert a rejection into
a failure outcome carrying the reason message or `"Unknown error"`. -/
def settleResult : SendOutcome → SendEmailResponse
  | .fulfilled value => value
  | .rejected reason =>
    { success := false, error := some (reason.getD "Unknown error") }

/-- `ResendEmailAdapter.sendBulkEmails` (src/src/types.ts:328-357): walk the
input in batches of 10; each batch is dispatched, jointly settled, and its
settled outcomes appended in order before the next batch starts. -/
def sendBulkEmails {α : Type} (send : α → SendOutcome) (emails : List α) :
    List SendEmailResponse :=
  match emails with
  | [] => []
  | e :: rest =>
    ((e :: rest).take 10).map (fun email => settleResult (send email)) ++
      sendBulkEmails send ((e :: rest).drop 10)
termination_by emails.length
decreasing_by simp; omega

/-- The success body returned by the webhook endpoint.  The unmatched-message
branch fills `statusEvent` with the raw event type; the update branch fills
`emailId`, `statusNew` (the update object status) and `updated`.  The update
branch echoes `payload.data.id` (not the resolved message id) as
`messageId`, mirroring src/src/index.ts:991. -/
structure WebhookSuccess where
  message : String
  emailId : Option String := none
  messageId : Option String := none
  statusEvent : Option String := none
  statusNew : Option EmailStatus := none
  updated : Option Bool := none
deriving DecidableEq, Repr

/-- A mutation issued to the persistence adapter. -/
inductive DbOp where
  | create (data : InputEmailLog)
  | update (id : String) (u : EmailLogUpdate)
deriving DecidableEq, Repr

/-- The signature-verification stage of `handleEmailWebhook`
(src/src/index.ts:876-909): with a secret configured and a truthy
`svix-signature` header, a failing verification aborts with 401; a missing
header, or no configured secret, skips verification. -/
def webhookSigError (webhookSecret : Option String)
    (verify : String → Option String → Option String → Option String →
      String → Bool)
    (body : String) (svixId svixTimestamp svixSignature : Option String) :
    Option ApiErr :=
  match webhookSecret with
  | some secret =>
    if jsTruthy svixSignature then
      if verify body svixId svixTimestamp svixSignature secret then none
      else some (.unauthorized "Invalid webhook signature")
    else none
  | none => none

/-- `handleEmailWebhook` (src/src/index.ts:842-1008) from the raw body
onward: verify the signature when required, parse the JSON body, extract the
message id (`data.id || data.email_id`), look the log row up by
`providerId`, and either acknowledge an unmatched message without mutation
or apply the parsed update to the matched row.  `verify` and `parseJson`
are the black-box svix verifier and `JSON.parse`; the second component of
the result lists the persistence mutations performed. -/
def handleEmailWebhook (webhookSecret : Option String)
    (verify : String → Option String → Option String → Option String →
      String → Bool)
    (parseJson : String → Option ResendWebhookPayload)
    (store : List EmailLogRec)
    (body : String) (svixId svixTimestamp svixSignature : Option String) :
    Except ApiErr WebhookSuccess × List DbOp :=
  match webhookSigError webhookSecret verify body svixId svixTimestamp
      svixSignature with
  | some e => (Except.error e, [])
  | none =>
    match parseJson body with
    | none => (Except.error (.badRequest "Invalid JSON payload"), [])
    | some payload =>
      let messageId := jsOrOpt payload.data.id payload.data.email_id
      if !jsTruthy messageId then
        (Except.error (.badRequest "No message ID found in webhook payload"),
          [])
      else
        let mid := messageId.getD ""
        match store.find? (fun log => log.providerId == some mid) with
        | none =>
          (Except.ok
            { message := "Webhook received but no matching email log found"
              messageId := some mid
              statusEvent := some payload.type }, [])
        | some emailLog =>
          match parseResendWebhook payload with
          | Except.error e => (Except.error (.internal e), [])
          | Except.ok updateData =>
            (Except.ok
              { message := "Email status updated successfully"
                emailId := some emailLog.id
                messageId := payload.data.id
                statusNew := updateData.status
                updated := some true },
              [DbOp.update emailLog.id updateData])

/-! ### Helper lemmas -/

theorem optGetD_idem {α : Type} (o : Option α) (x : α) :
    o.getD (o.getD x) = o.getD x := by
  cases o <;> rfl

theorem patchField_idem {α : Type} (u old : Option α) :
    patchField u (patchField u old) = patchField u old := by
  cases u <;> rfl

theorem applyUpdate_idem (log : EmailLogRec) (u : EmailLogUpdate) :
    applyUpdate (applyUpdate log u) u = applyUpdate log u := by
  simp [applyUpdate, optGetD_idem, patchField_idem]

theorem splitComma_no_comma (l : List Char) (h : ',' ∉ l) :
    splitComma l = [l] := by
  induction l with
  | nil => rfl
  | cons c cs ih =>
    have hc : ¬c = ',' := fun e => h (e ▸ List.mem_cons_self c cs)
    have hcs : ',' ∉ cs := fun m => h (List.mem_cons_of_mem _ m)
    simp only [splitComma, if_neg hc, ih hcs]

theorem splitComma_append (l rest : List Char) (h : ',' ∉ l) :
    splitComma (l ++ ',' :: rest) = l :: splitComma rest := by
  induction l with
  | nil => simp [splitComma]
  | cons c cs ih =>
    have hc : ¬c = ',' := fun e => h (e ▸ List.mem_cons_self c cs)
    have hcs : ',' ∉ cs := fun m => h (List.mem_cons_of_mem _ m)
    simp only [List.cons_append, splitComma, if_neg hc]
    rw [show cs.append (',' :: rest) = cs ++ (',' :: rest) from rfl, ih hcs]

theorem string_data_eq_nil {s : String} : s.data = [] ↔ s = "" := by
  cases s with
  | mk d =>
    constructor
    · intro h
      subst h
      rfl
    · intro h
      exact congrArg String.data h

theorem splitComma_jsJoin : ∀ (xs : List String), xs ≠ [] →
    (∀ x ∈ xs, ',' ∉ x.data) →
    splitComma (jsJoin "," xs).data = xs.map String.data
  | [], hne, _ => absurd rfl hne
  | [x], _, hx => by
    simpa [jsJoin] using splitComma_no_comma x.data (hx x (by simp))
  | x :: y :: ys, _, hx => by
    have h1 : ',' ∉ x.data := hx x (by simp)
    have ih := splitComma_jsJoin (y :: ys) (by simp)
      (fun z hz => hx z (List.mem_cons_of_mem _ hz))
    show splitComma (x ++ "," ++ jsJoin "," (y :: ys)).data = _
    rw [String.data_append, String.data_append]
    have hcomma : (("," : String)).data = [','] := rfl
    rw [hcomma, List.append_assoc]
    show splitComma (x.data ++ ',' :: (jsJoin "," (y :: ys)).data) = _
    rw [splitComma_append _ _ h1, ih]
    rfl

theorem jsJoin_data_ne_nil : ∀ (xs : List String), xs ≠ [] →
    (∀ x ∈ xs, ¬x = "") → (jsJoin "," xs).data ≠ []
  | [], hne, _ => absurd rfl hne
  | [x], _, hx => by
    have hxne : ¬x = "" := hx x (by simp)
    simp only [jsJoin]
    intro hdata
    exact hxne (string_data_eq_nil.mp hdata)
  | x :: y :: ys, _, hx => by
    show ((x ++ "," ++ jsJoin "," (y :: ys)).data ≠ [])
    rw [String.data_append, String.data_append]
    simp

/-! ### Claim theorems -/

/-- C10: the address join/split helpers round-trip: for every non-empty list
of non-empty comma-free strings, `stringToArray (arrayToString xs) = xs`;
`arrayToString` of an absent or empty list is absent (never the empty
string), and `stringToArray` of an absent or empty string is absent. -/
theorem c10_join_split_roundtrip (xs : List String) (hne : xs ≠ [])
    (hx : ∀ x ∈ xs, ¬x = "" ∧ ',' ∉ x.data) :
    stringToArray (arrayToString (some xs)) = some xs
    ∧ arrayToString none = none
    ∧ arrayToString (some []) = none
    ∧ stringToArray none = none
    ∧ stringToArray (some "") = none := by
  refine ⟨?_, rfl, rfl, rfl, rfl⟩
  have hlen : xs.length > 0 := List.length_pos.mpr hne
  simp only [arrayToString, if_pos hlen]
  have hjoin : ¬(jsJoin "," xs).isEmpty = true := fun ht =>
    jsJoin_data_ne_nil xs hne (fun x m => (hx x m).1)
      (string_data_eq_nil.mpr ((String.isEmpty_iff _).mp ht))
  simp only [stringToArray, if_neg hjoin]
  rw [splitComma_jsJoin xs hne (fun x m => (hx x m).2), List.map_map]
  rw [show String.mk ∘ String.data = id from funext fun s => rfl, List.map_id]
  rw [List.filter_eq_self.mpr ?_]
  intro x m
  simp only [Bool.not_eq_eq_eq_not, Bool.not_true]
  exact Bool.eq_false_iff.mpr fun ht =>
    (hx x m).1 ((String.isEmpty_iff _).mp ht)

/-- Witness for C10 at `xs = ["a", "b"]`. -/
theorem c10_witness :
    stringToArray (arrayToString (some ["a", "b"])) = some ["a", "b"] :=
  (c10_join_split_roundtrip ["a", "b"] (by simp) (by decide)).1

/-- C9: address validation is atomic: if any element of the input (a single
string is treated as a one-element list) fails the format check the call
fails with an error naming exactly the malformed addresses, accepting
nothing; if every element passes, the call returns the input elements in
their original order.  The two closed conjuncts are the concrete cases from
the specification. -/
theorem c9_atomic_validation :
    (∀ input : EmailsArg,
      validateEmailArray input =
        if (emailsArgToArray input).all isValidEmail then
          Except.ok (emailsArgToArray input)
        else
          Except.error ("Invalid email addresses: " ++ jsJoin ", "
            ((emailsArgToArray input).filter (fun e => !isValidEmail e))))
    ∧ (∀ s, validateEmailArray (.one s) = validateEmailArray (.many [s]))
    ∧ validateEmailArray (.many ["a@b.com", "bad"]) =
        Except.error "Invalid email addresses: bad"
    ∧ validateEmailArray (.many ["a@b.com", "c@d.com"]) =
        Except.ok ["a@b.com", "c@d.com"] := by
  refine ⟨?_, fun s => rfl, by rfl, by rfl⟩
  intro input
  simp only [validateEmailArray]
  cases hall : (emailsArgToArray input).all isValidEmail with
  | false =>
    have ⟨x, hm, hv⟩ : ∃ x ∈ emailsArgToArray input, ¬isValidEmail x := by
      simpa using List.all_eq_false.mp hall
    have hmem : x ∈ (emailsArgToArray input).filter
        (fun e => !isValidEmail e) :=
      List.mem_filter.mpr ⟨hm, by simp [hv]⟩
    rw [if_pos (List.length_pos.mpr (List.ne_nil_of_mem hmem))]
    simp
  | true =>
    have hfil : (emailsArgToArray input).filter (fun e => !isValidEmail e)
        = [] :=
      List.filter_eq_nil_iff.mpr
        (fun a ha => by simp [List.all_eq_true.mp hall a ha])
    rw [hfil]
    simp

/-- C6: `calculateEmailStats` returns `total` = length; `sent` = count of
entries whose current status is sent or delivered; exact per-status counts
for the other seven statuses; `openRate`/`clickRate` = opened (resp.
clicked) over delivered times 100 when delivered is positive and 0
otherwise; `bounceRate` = bounced over sent times 100 when sent is positive
and 0 otherwise; for the empty sequence every count and rate is 0, so a
zero denominator never produces an undefined value. -/
theorem c6_stats_characterization (logs : List EmailLogRec) :
    (calculateEmailStats logs).total = logs.length
    ∧ (calculateEmailStats logs).sent =
        logs.countP (fun log => log.status == .sent || log.status == .delivered)
    ∧ (calculateEmailStats logs).delivered =
        logs.countP (fun log => log.status == .delivered)
    ∧ (calculateEmailStats logs).opened =
        logs.countP (fun log => log.status == .opened)
    ∧ (calculateEmailStats logs).clicked =
        logs.countP (fun log => log.status == .clicked)
    ∧ (calculateEmailStats logs).bounced =
        logs.countP (fun log => log.status == .bounced)
    ∧ (calculateEmailStats logs).complained =
        logs.countP (fun log => log.status == .complained)
    ∧ (calculateEmailStats logs).failed =
        logs.countP (fun log => log.status == .failed)
    ∧ (calculateEmailStats logs).openRate =
        (if 0 < logs.countP (fun log => log.status == .delivered) then
          ((logs.countP (fun log => log.status == .opened) : Rat) /
            (logs.countP (fun log => log.status == .delivered) : Rat)) * 100
        else 0)
    ∧ (calculateEmailStats logs).clickRate =
        (if 0 < logs.countP (fun log => log.status == .delivered) then
          ((logs.countP (fun log => log.status == .clicked) : Rat) /
            (logs.countP (fun log => log.status == .delivered) : Rat)) * 100
        else 0)
    ∧ (calculateEmailStats logs).bounceRate =
        (if 0 < logs.countP
            (fun log => log.status == .sent || log.status == .delivered) then
          ((logs.countP (fun log => log.status == .bounced) : Rat) /
            (logs.countP
              (fun log => log.status == .sent || log.status == .delivered) :
              Rat)) * 100
        else 0)
    ∧ calculateEmailStats [] =
        { total := 0, sent := 0, delivered := 0, opened := 0, clicked := 0,
          bounced := 0, complained := 0, failed := 0,
          openRate := 0, clickRate := 0, bounceRate := 0 } := by
  simp [calculateEmailStats, List.countP_eq_length_filter]

/-- C2: re-applying the reconciler's update for a fixed webhook event is
idempotent: the update object is a pure function of the payload, every field
it carries (status, timestamps, `updatedAt`, error message) is overwritten
with the same value on re-delivery, and no field accumulates, so the second
application leaves the row exactly as the first did. -/
theorem c2_webhook_idempotent (payload : ResendWebhookPayload)
    (u : EmailLogUpdate) (log : EmailLogRec)
    (_h : parseResendWebhook payload = Except.ok u) :
    applyUpdate (applyUpdate log u) u = applyUpdate log u :=
  applyUpdate_idem log u

/-- Witness for C2 at a concrete `email.delivered` payload. -/
theorem c2_witness :
    parseResendWebhook
      { type := "email.delivered", created_at := 1700,
        data := { id := some "msg_1" } } =
      Except.ok
        { status := some .delivered, providerId := some "msg_1",
          updatedAt := some 1700, deliveredAt := some 1700 }
    ∧ applyUpdate
        (applyUpdate
          { id := "email_1", fromAddress := "noreply@x.com",
            toAddress := "a@b.com", subject := "s", content := "c",
            contentType := .text, status := .sent,
            providerId := some "msg_1", provider := .resend,
            sentAt := some 1600, createdAt := 1600, updatedAt := 1600 }
          { status := some .delivered, providerId := some "msg_1",
            updatedAt := some 1700, deliveredAt := some 1700 })
        { status := some .delivered, providerId := some "msg_1",
          updatedAt := some 1700, deliveredAt := some 1700 } =
      applyUpdate
        { id := "email_1", fromAddress := "noreply@x.com",
          toAddress := "a@b.com", subject := "s", content := "c",
          contentType := .text, status := .sent,
          providerId := some "msg_1", provider := .resend,
          sentAt := some 1600, createdAt := 1600, updatedAt := 1600 }
        { status := some .delivered, providerId := some "msg_1",
          updatedAt := some 1700, deliveredAt := some 1700 } :=
  ⟨rfl,
    c2_webhook_idempotent
      { type := "email.delivered", created_at := 1700,
        data := { id := some "msg_1" } } _ _ rfl⟩

theorem parseResendWebhook_ok (p : ResendWebhookPayload)
    (u : EmailLogUpdate) (h : parseResendWebhook p = Except.ok u) :
    jsTruthy (jsOrOpt p.data.id p.data.email_id) = true
    ∧ u =
      { status := some (webhookEventToStatus p.type)
        providerId := jsOrOpt p.data.id p.data.email_id
        updatedAt := some p.created_at
        sentAt := if p.type = "email.sent" then some p.created_at else none
        deliveredAt :=
          if p.type = "email.delivered" then some p.created_at else none
        openedAt := if p.type = "email.opened" then some p.created_at else none
        clickedAt :=
          if p.type = "email.clicked" then some p.created_at else none
        bouncedAt :=
          if p.type = "email.bounced" then some p.created_at else none
        complainedAt :=
          if p.type = "email.complained" then some p.created_at else none
        failedAt := if p.type = "email.failed" then some p.created_at else none
        errorMessage :=
          if p.type = "email.bounced" then
            (match p.data.bounce_type with
              | some bt => if bt.isEmpty then none
                  else some ("Bounced: " ++ bt)
              | none => none)
          else if p.type = "email.complained" then
            (match p.data.complaint_type with
              | some ct => if ct.isEmpty then none
                  else some ("Complained: " ++ ct)
              | none => none)
          else if p.type = "email.failed" then some "Email delivery failed"
          else none } := by
  simp only [parseResendWebhook] at h
  split at h
  · exact absurd h (by simp)
  · rename_i htruthy
    refine ⟨by simpa using htruthy, ?_⟩
    rw [Except.ok.injEq] at h
    subst h
    split <;> rename_i hpt <;> simp_all

/-- Counterexample to C7 as stated: the webhook reconciler's update object
does include a `providerId` write.  For a concrete `email.delivered` payload
the update produced by `parseResendWebhook` carries
`providerId = some "msg_1"`, so the matched row's `providerId` field is
written again by the status update (the claim says it is never reassigned
by any subsequent operation). -/
theorem c7_counterexample :
    parseResendWebhook
      { type := "email.delivered", created_at := 1000,
        data := { id := some "msg_1" } } =
      Except.ok
        { status := some .delivered, providerId := some "msg_1",
          updatedAt := some 1000, deliveredAt := some 1000 }
    ∧ (({ status := some .delivered, providerId := some "msg_1",
          updatedAt := some 1000, deliveredAt := some 1000 } :
          EmailLogUpdate).providerId ≠ none) :=
  ⟨rfl, by simp⟩

/-- C7 amended: the send pipeline assigns `providerId` only on a successful
send (a failed send leaves it untouched), and although the webhook
reconciler's update does write the `providerId` field, the value it writes
is the message id by which the row was matched, which equals the row's
existing `providerId`; hence the value of `providerId` never changes after
its single assignment. -/
theorem c7_provider_id_value_stable :
    (∀ (base : InputEmailLog) (res : SendEmailResponse) (now : Nat),
      res.success = false →
      (finalizeEmailLog base res now).providerId = base.providerId)
    ∧ (∀ (log : EmailLogRec) (p : ResendWebhookPayload) (u : EmailLogUpdate)
        (mid : String),
        log.providerId = some mid →
        jsOrOpt p.data.id p.data.email_id = some mid →
        parseResendWebhook p = Except.ok u →
        u.providerId = some mid
        ∧ (applyUpdate log u).providerId = log.providerId) := by
  constructor
  · intro base res now hfail
    simp [finalizeEmailLog, hfail]
  · intro log p u mid hlog hmid hp
    obtain ⟨-, hu⟩ := parseResendWebhook_ok p u hp
    subst hu
    exact ⟨hmid, by simp [applyUpdate, patchField, hmid, hlog]⟩

/-- Witness for C7 amended: a failed send leaves `providerId` unassigned,
and a matched webhook update writes back the existing value. -/
theorem c7_witness :
    (finalizeEmailLog
      { fromAddress := "noreply@x.com", toAddress := "a@b.com",
        subject := "s", content := "c", contentType := .text,
        status := .pending, provider := .resend }
      { success := false, error := some "boom" } 7).providerId = none
    ∧ (applyUpdate
        { id := "email_1", fromAddress := "noreply@x.com",
          toAddress := "a@b.com", subject := "s", content := "c",
          contentType := .text, status := .sent,
          providerId := some "msg_1", provider := .resend,
          createdAt := 1600, updatedAt := 1600 }
        { status := some .delivered, providerId := some "msg_1",
          updatedAt := some 1700, deliveredAt := some 1700 }).providerId =
      some "msg_1" := by
  constructor
  · exact c7_provider_id_value_stable.1 _ _ 7 rfl
  · exact (c7_provider_id_value_stable.2 _
      { type := "email.delivered", created_at := 1700,
        data := { id := some "msg_1" } } _ "msg_1" rfl rfl rfl).2

/-- Counterexample to C8 as stated: the reconciler sets `updatedAt` to the
event timestamp (`payload.created_at`), not to the processing-time clock.
For a payload whose event timestamp is 1000, the update carries
`updatedAt = some 1000`; a handler processing it at clock instant 2000
would, per the claim, have to write `updatedAt = 2000`, but the update
object is independent of the clock. -/
theorem c8_counterexample :
    parseResendWebhook
      { type := "email.delivered", created_at := 1000,
        data := { id := some "msg_2" } } =
      Except.ok
        { status := some .delivered, providerId := some "msg_2",
          updatedAt := some 1000, deliveredAt := some 1000 }
    ∧ (({ status := some .delivered, providerId := some "msg_2",
          updatedAt := some 1000, deliveredAt := some 1000 } :
          EmailLogUpdate).updatedAt = some 1000)
    ∧ (({ status := some .delivered, providerId := some "msg_2",
          updatedAt := some 1000, deliveredAt := some 1000 } :
          EmailLogUpdate).updatedAt ≠ some 2000) :=
  ⟨rfl, rfl, by simp⟩

/-- C8 amended: the reconciler's update sets `status` to the internal status
mapped from the event type (unrecognized event types map to `pending` rather
than rejecting the webhook), sets the timestamp field corresponding to the
event type, sets `updatedAt` to the event timestamp (`payload.created_at`,
not the processing-time clock), sets `errorMessage` to a description
carrying the vendor bounce or complaint subtype for `bounced`/`complained`
events when that subtype is present (and truthy), and sets a generic
delivery-failure message for `failed` events. -/
theorem c8_reconciler_update_contents (p : ResendWebhookPayload)
    (u : EmailLogUpdate) (h : parseResendWebhook p = Except.ok u) :
    u.status = some (webhookEventToStatus p.type)
    ∧ (p.type ∉ (["email.sent", "email.delivered", "email.opened",
        "email.clicked", "email.bounced", "email.complained", "email.failed",
        "email.delivery_delayed"] : List String) →
        webhookEventToStatus p.type = .pending)
    ∧ u.updatedAt = some p.created_at
    ∧ (p.type = "email.sent" → u.sentAt = some p.created_at)
    ∧ (p.type = "email.delivered" → u.deliveredAt = some p.created_at)
    ∧ (p.type = "email.opened" → u.openedAt = some p.created_at)
    ∧ (p.type = "email.clicked" → u.clickedAt = some p.created_at)
    ∧ (p.type = "email.bounced" → u.bouncedAt = some p.created_at
        ∧ u.errorMessage =
          (match p.data.bounce_type with
            | some bt => if bt.isEmpty then none else some ("Bounced: " ++ bt)
            | none => none))
    ∧ (p.type = "email.complained" → u.complainedAt = some p.created_at
        ∧ u.errorMessage =
          (match p.data.complaint_type with
            | some ct =>
              if ct.isEmpty then none else some ("Complained: " ++ ct)
            | none => none))
    ∧ (p.type = "email.failed" → u.failedAt = some p.created_at
        ∧ u.errorMessage = some "Email delivery failed") := by
  obtain ⟨-, hu⟩ := parseResendWebhook_ok p u h
  subst hu
  refine ⟨rfl, ?_, rfl, ?_, ?_, ?_, ?_, ?_, ?_, ?_⟩
  · intro hn
    unfold webhookEventToStatus
    split <;> simp_all
  all_goals intro he
  all_goals simp [he]

/-- Witness for C8 amended at a concrete `email.bounced` payload carrying a
bounce subtype. -/
theorem c8_witness :
    parseResendWebhook
      { type := "email.bounced", created_at := 1234,
        data := { email_id := some "msg_3", bounce_type := some "hard" } } =
      Except.ok
        { status := some .bounced, providerId := some "msg_3",
          updatedAt := some 1234, bouncedAt := some 1234,
          errorMessage := some "Bounced: hard" }
    ∧ ({ status := some .bounced, providerId := some "msg_3",
          updatedAt := some 1234, bouncedAt := some 1234,
          errorMessage := some "Bounced: hard" } :
          EmailLogUpdate).updatedAt = some 1234
    ∧ ({ status := some .bounced, providerId := some "msg_3",
          updatedAt := some 1234, bouncedAt := some 1234,
          errorMessage := some "Bounced: hard" } :
          EmailLogUpdate).bouncedAt = some 1234
    ∧ ({ status := some .bounced, providerId := some "msg_3",
          updatedAt := some 1234, bouncedAt := some 1234,
          errorMessage := some "Bounced: hard" } :
          EmailLogUpdate).errorMessage = some "Bounced: hard" := by
  refine ⟨rfl, ?_, ?_, ?_⟩
  · exact (c8_reconciler_update_contents
      { type := "email.bounced", created_at := 1234,
        data := { email_id := some "msg_3", bounce_type := some "hard" } }
      _ rfl).2.2.1
  · exact ((c8_reconciler_update_contents
      { type := "email.bounced", created_at := 1234,
        data := { email_id := some "msg_3", bounce_type := some "hard" } }
      _ rfl).2.2.2.2.2.2.2.1 rfl).1
  · exact ((c8_reconciler_update_contents
      { type := "email.bounced", created_at := 1234,
        data := { email_id := some "msg_3", bounce_type := some "hard" } }
      _ rfl).2.2.2.2.2.2.2.1 rfl).2

theorem sendBulkEmails_eq_map {α : Type} (send : α → SendOutcome) :
    ∀ emails : List α,
      sendBulkEmails send emails =
        emails.map (fun email => settleResult (send email))
  | [] => by simp [sendBulkEmails]
  | e :: rest => by
    have ih := sendBulkEmails_eq_map send ((e :: rest).drop 10)
    rw [sendBulkEmails, ih, ← List.map_append, List.take_append_drop]
termination_by emails => emails.length
decreasing_by simp; omega

/-- The concrete bulk scenario of the specification: 23 requests, the ones
at indices 5 and 17 reject (the adapter throws). -/
def sendScenario23 (i : Nat) : SendOutcome :=
  if i = 5 ∨ i = 17 then .rejected (some "adapter threw")
  else .fulfilled { success := true, providerId := some "ok" }

/-- C3: `sendBulkEmails` walks the input in batches of 10 (each batch is
settled in full before the next batch starts, by the shape of the
definition) and its result is exactly the input sequence mapped through the
settled per-request outcome: one outcome per input in input order, a
rejected request degrading to a `success := false` outcome for that element
alone.  The closed conjunct is the specification's 23-request scenario with
rejections at indices 5 and 17. -/
theorem c3_bulk_order_isolation :
    (∀ {α : Type} (send : α → SendOutcome) (emails : List α),
      sendBulkEmails send emails =
        emails.map (fun email => settleResult (send email))
      ∧ (sendBulkEmails send emails).length = emails.length)
    ∧ sendBulkEmails sendScenario23 (List.range 23) =
        (List.range 23).map (fun i =>
          if i = 5 ∨ i = 17 then
            { success := false, error := some "adapter threw" }
          else { success := true, providerId := some "ok" }) := by
  constructor
  · intro α send emails
    refine ⟨sendBulkEmails_eq_map send emails, ?_⟩
    rw [sendBulkEmails_eq_map send emails, List.length_map]
  · rw [sendBulkEmails_eq_map sendScenario23 (List.range 23)]
    refine List.map_congr_left ?_
    intro i _
    by_cases hi : i = 5 ∨ i = 17 <;> simp [sendScenario23, settleResult, hi]

/-- Counterexample to C1 as stated: when the adapter fails with the error
value `e = ""`, the persisted entry does not carry `errorMessage = e`; the
code computes `sendResult.error || "Failed to send email"`, and the empty
string is falsy, so the fallback message is stored (and carried by the
thrown error) instead of `e`. -/
theorem c1_counterexample :
    (finalizeEmailLog
      { fromAddress := "noreply@x.com", toAddress := "a@b.com",
        subject := "s", content := "c", contentType := .text,
        status := .pending, provider := .resend }
      { success := false, error := some "" } 5).errorMessage =
      some "Failed to send email"
    ∧ (finalizeEmailLog
        { fromAddress := "noreply@x.com", toAddress := "a@b.com",
          subject := "s", content := "c", contentType := .text,
          status := .pending, provider := .resend }
        { success := false, error := some "" } 5).errorMessage ≠ some "" :=
  ⟨rfl, by simp [finalizeEmailLog, jsOrDefault]; rfl⟩

/-- C1 amended: after the adapter call, `sendEmail` performs exactly one
persistence create regardless of outcome, and the create is the first
observable step.  On `success := true` the created entry has `status =
sent`, the adapter's `providerId`, and `sentAt` set, and the handler then
returns success.  On `success := false` the created entry has `status =
failed`, `failedAt` set, and `errorMessage` equal to the adapter's error
when that error is a non-empty string and to the fallback
`"Failed to send email"` otherwise; the handler then throws a send error
carrying that same message, strictly after the create step. -/
theorem c1_send_always_logged (base : InputEmailLog)
    (res : SendEmailResponse) (now : Nat) (emailLogId : String) :
    (sendEmailSteps base res now emailLogId).countP SendStep.isCreate = 1
    ∧ (sendEmailSteps base res now emailLogId).head? =
        some (SendStep.createLog (finalizeEmailLog base res now))
    ∧ (res.success = true →
        sendEmailSteps base res now emailLogId =
          [SendStep.createLog (finalizeEmailLog base res now),
            SendStep.respond emailLogId res.providerId
              "Email sent successfully"]
        ∧ (finalizeEmailLog base res now).status = .sent
        ∧ (finalizeEmailLog base res now).providerId = res.providerId
        ∧ (finalizeEmailLog base res now).sentAt = some now)
    ∧ (res.success = false →
        sendEmailSteps base res now emailLogId =
          [SendStep.createLog (finalizeEmailLog base res now),
            SendStep.throwErr (.internal
              (jsOrDefault res.error "Failed to send email"))]
        ∧ (finalizeEmailLog base res now).status = .failed
        ∧ (finalizeEmailLog base res now).failedAt = some now
        ∧ (finalizeEmailLog base res now).errorMessage =
            some (jsOrDefault res.error "Failed to send email")) := by
  cases hres : res.success <;>
    simp [sendEmailSteps, finalizeEmailLog, hres, SendStep.isCreate,
      List.countP_cons, List.countP_nil]

/-- Witness for C1 amended at a successful and at a failed adapter outcome. -/
theorem c1_witness :
    ((finalizeEmailLog
      { fromAddress := "noreply@x.com", toAddress := "a@b.com",
        subject := "s", content := "c", contentType := .text,
        status := .pending, provider := .resend }
      { success := true, providerId := some "msg_9" } 5).status = .sent
      ∧ (finalizeEmailLog
        { fromAddress := "noreply@x.com", toAddress := "a@b.com",
          subject := "s", content := "c", contentType := .text,
          status := .pending, provider := .resend }
        { success := true, providerId := some "msg_9" } 5).providerId =
          some "msg_9")
    ∧ ((finalizeEmailLog
      { fromAddress := "noreply@x.com", toAddress := "a@b.com",
        subject := "s", content := "c", contentType := .text,
        status := .pending, provider := .resend }
      { success := false, error := some "boom" } 5).status = .failed
      ∧ (finalizeEmailLog
        { fromAddress := "noreply@x.com", toAddress := "a@b.com",
          subject := "s", content := "c", contentType := .text,
          status := .pending, provider := .resend }
        { success := false, error := some "boom" } 5).errorMessage =
          some "boom") := by
  constructor
  · have h := (c1_send_always_logged
      { fromAddress := "noreply@x.com", toAddress := "a@b.com",
        subject := "s", content := "c", contentType := .text,
        status := .pending, provider := .resend }
      { success := true, providerId := some "msg_9" } 5 "email_9").2.2.1 rfl
    exact ⟨h.2.1, h.2.2.1⟩
  · have h := (c1_send_always_logged
      { fromAddress := "noreply@x.com", toAddress := "a@b.com",
        subject := "s", content := "c", contentType := .text,
        status := .pending, provider := .resend }
      { success := false, error := some "boom" } 5 "email_9").2.2.2 rfl
    exact ⟨h.2.1, h.2.2.2⟩

/-- C4: a well-formed webhook that clears the signature stage, parses, and
carries a truthy message id matching no stored row (lookup by `providerId`)
is acknowledged with success and the distinguishing message
`"Webhook received but no matching email log found"`, and the handler issues
zero persistence mutations, so the provider is not told to retry. -/
theorem c4_unmatched_webhook_acknowledged (webhookSecret : Option String)
    (verify : String → Option String → Option String → Option String →
      String → Bool)
    (parseJson : String → Option ResendWebhookPayload)
    (store : List EmailLogRec) (body : String)
    (svixId svixTimestamp svixSignature : Option String)
    (payload : ResendWebhookPayload) (mid : String)
    (hsig : webhookSigError webhookSecret verify body svixId svixTimestamp
      svixSignature = none)
    (hparse : parseJson body = some payload)
    (hmid : jsOrOpt payload.data.id payload.data.email_id = some mid)
    (htruthy : mid.isEmpty = false)
    (hfind : store.find? (fun log => log.providerId == some mid) = none) :
    handleEmailWebhook webhookSecret verify parseJson store body svixId
        svixTimestamp svixSignature =
      (Except.ok
        { message := "Webhook received but no matching email log found"
          messageId := some mid
          statusEvent := some payload.type }, []) := by
  simp [handleEmailWebhook, hsig, hparse, hmid, jsTruthy, htruthy, hfind]

/-- A concrete payload whose message id matches no stored row. -/
def payload404 : ResendWebhookPayload :=
  { type := "email.delivered", created_at := 1700,
    data := { id := some "msg_404" } }

/-- Witness for C4: empty store, no secret configured, concrete payload. -/
theorem c4_witness :
    handleEmailWebhook none (fun _ _ _ _ _ => false)
        (fun _ => some payload404) [] "raw-body" none none none =
      (Except.ok
        { message := "Webhook received but no matching email log found"
          messageId := some "msg_404"
          statusEvent := some "email.delivered" }, []) :=
  c4_unmatched_webhook_acknowledged none (fun _ _ _ _ _ => false)
    (fun _ => some payload404) [] "raw-body" none none none
    payload404 "msg_404" rfl rfl rfl rfl rfl

/-- C5: with a webhook secret configured and a truthy signature header that
fails verification, the handler fails with the unauthorized error and
performs no persistence mutation; with no webhook secret configured the
signature stage is skipped and the run is identical to a configured run
whose verification succeeds, so the same payload proceeds through the
remaining reconciliation steps. -/
theorem c5_signature_enforcement :
    (∀ (secret : String)
      (verify : String → Option String → Option String → Option String →
        String → Bool)
      (parseJson : String → Option ResendWebhookPayload)
      (store : List EmailLogRec) (body : String)
      (svixId svixTimestamp svixSignature : Option String),
      jsTruthy svixSignature = true →
      verify body svixId svixTimestamp svixSignature secret = false →
      handleEmailWebhook (some secret) verify parseJson store body svixId
          svixTimestamp svixSignature =
        (Except.error (.unauthorized "Invalid webhook signature"), []))
    ∧ (∀ (secret : String)
      (verify : String → Option String → Option String → Option String →
        String → Bool)
      (parseJson : String → Option ResendWebhookPayload)
      (store : List EmailLogRec) (body : String)
      (svixId svixTimestamp svixSignature : Option String),
      verify body svixId svixTimestamp svixSignature secret = true →
      handleEmailWebhook none verify parseJson store body svixId
          svixTimestamp svixSignature =
        handleEmailWebhook (some secret) verify parseJson store body svixId
          svixTimestamp svixSignature) := by
  constructor
  · intro secret verify parseJson store body svixId svixTimestamp
      svixSignature htr hver
    simp [handleEmailWebhook, webhookSigError, htr, hver]
  · intro secret verify parseJson store body svixId svixTimestamp
      svixSignature hver
    have hnone : webhookSigError none verify body svixId svixTimestamp
        svixSignature = none := rfl
    have hsome : webhookSigError (some secret) verify body svixId
        svixTimestamp svixSignature = none := by
      simp [webhookSigError, hver]
    rw [handleEmailWebhook, handleEmailWebhook, hnone, hsome]

/-- Witness for C5: a tampered signature under a configured secret is
rejected with no mutation; with no secret the same request runs exactly as
a configured run whose verification succeeds. -/
theorem c5_witness :
    handleEmailWebhook (some "whsec") (fun _ _ _ _ _ => false)
        (fun _ => some payload404) [] "raw-body" none none
        (some "bad-sig") =
      (Except.error (.unauthorized "Invalid webhook signature"), [])
    ∧ handleEmailWebhook none (fun _ _ _ _ _ => true)
        (fun _ => some payload404) [] "raw-body" none none (some "sig") =
      handleEmailWebhook (some "whsec") (fun _ _ _ _ _ => true)
        (fun _ => some payload404) [] "raw-body" none none (some "sig") :=
  ⟨c5_signature_enforcement.1 "whsec" (fun _ _ _ _ _ => false)
      (fun _ => some payload404) [] "raw-body" none none (some "bad-sig")
      rfl rfl,
    c5_signature_enforcement.2 "whsec" (fun _ _ _ _ _ => true)
      (fun _ => some payload404) [] "raw-body" none none (some "sig") rfl⟩
